import Mathlib

set_option maxRecDepth 100000

/-!
A shallow embedding of `src/htmltopdf.py`, a command-line HTML-to-PDF
converter, together with theorems settling the specification's claims.

The external capabilities (the BeautifulSoup HTML parser, the WeasyPrint
renderer, and the operating system's file system) are modelled as opaque
parameters: the file system is a record of pure functions, the parser is a
function from the raw text to a parsed document, and the renderer is a
function receiving the mutated document, the ordered stylesheet list and
the output path.  Everything the Python source itself computes (attribute
rewriting, stylesheet collection, page-rule composition, the control flow
of `convert_html_to_pdf` and `main`) is translated directly.
-/

namespace HtmlToPdf

/-- Python's `str.startswith(p)`, expressed on the character lists. -/
def pyStartswith (s p : String) : Bool := p.data.isPrefixOf s.data

/-- Python's `str.startswith((p1, p2, ...))`: true when any listed
string is a prefix. -/
def startsWithAny (s : String) (ps : List String) : Bool :=
  ps.any (fun p => pyStartswith s p)

/-- Python's `str.lower()` (character-wise, which matches its behaviour
on the ASCII attribute values involved here). -/
def pyLower (s : String) : String := ⟨s.data.map Char.toLower⟩

/-- Python's `str.endswith(p)`. -/
def pyEndswith (s p : String) : Bool := p.data.isSuffixOf s.data

/-- POSIX `os.path.join` restricted to two components, exactly as CPython
computes it: an absolute second component replaces the first, otherwise
the two are joined with a separator unless one is already in place. -/
def joinPath (a b : String) : String :=
  if pyStartswith b "/" then b
  else if a = "" || pyEndswith a "/" then a ++ b
  else a ++ "/" ++ b

/-- A node of the parsed document, keeping exactly the data the converter
inspects: `img` elements carry an optional `src` attribute, `link`
elements carry the optional multi-valued `rel` attribute and an optional
`href`, and every other element is opaque.  BeautifulSoup reports `rel`
as a list of whitespace-separated tokens; an absent `src`/`href`/`rel`
is `none`, an empty attribute value is `some ""` (respectively
`some []`). -/
inductive Node where
  | img (src : Option String)
  | link (rel : Option (List String)) (href : Option String)
  | other (tag : String)
deriving DecidableEq

/-- The parsed document: its element nodes in document order
(`soup.find_all` traverses the tree in document order, which the flat
list models). -/
abbrev Doc := List Node

/-- The operating-system capabilities the script uses: `os.path.exists`,
opening and fully reading a text file (which may fail with a message,
modelling the raised exception), and
`os.path.abspath(os.path.dirname(...))`. -/
structure OS where
  fileExists : String → Bool
  readFile : String → Except String String
  absDirname : String → String

/-- Everything the converter has produced by the time it invokes the
renderer: the mutated document (`str(soup)` is handed over after
serialization, which is the parser library's inverse and is not modelled
further), the ordered stylesheet contents, and the warning lines printed
along the way. -/
structure Prepared where
  soup : Doc
  stylesheets : List String
  warnings : List String
deriving DecidableEq

/-- The selection test of source lines 12-13: the `rel` attribute
(defaulted to `['']` when absent, as `link.get('rel', [''])` does) must
have a first token lowercasing to `stylesheet`, and `link.get('href')`
must be truthy, i.e. present and non-empty; on success the `href` value
is returned.  (When `rel` is present but empty — `rel=""` parses to an
empty token list — the source raises `IndexError` on `[0]`; no claim
exercises that corner and the model simply does not select such a
link.) -/
def linkHref (rel : Option (List String)) (href : Option String) :
    Option String :=
  match (rel.getD [""]).head?, href with
  | some t, some h => if pyLower t = "stylesheet" ∧ h ≠ "" then some h else none
  | _, _ => none

/-- `find_css_files(soup, base_dir)` from the source, lines 8-22: walk
the `link` elements in document order; select those passing `linkHref`;
skip network references; resolve the rest against `base_dir` with
`os.path.join`; keep the resolved path when it exists on disk and
otherwise print a warning.  Returns the kept paths and the warning
lines, each in document order. -/
def find_css_files (fs : OS) (nodes : List Node) (baseDir : String) :
    List String × List String :=
  match nodes with
  | [] => ([], [])
  | n :: rest =>
    let r := find_css_files fs rest baseDir
    match n with
    | Node.link rel href =>
      match linkHref rel href with
      | none => r
      | some h =>
        if startsWithAny h ["http://", "https://"] = false then
          if fs.fileExists (joinPath baseDir h) then
            (joinPath baseDir h :: r.1, r.2)
          else
            (r.1, ("Warning: CSS file not found: " ++ joinPath baseDir h) :: r.2)
        else r
    | _ => r

/-- The fixed default page-styling block from `load_css_files`
(source lines 35-46): A4 size, 1cm margin, an empty top-center header and
a page-counter bottom-center footer (`\x7b` and `\x7d` denote the
literal braces). -/
def default_css : String :=
  "\n        @page \x7b\n            size: A4;\n            margin: 1cm;\n            @top-center \x7b\n                content: '';\n            \x7d\n            @bottom-center \x7b\n                content: counter(page);\n            \x7d\n        \x7d\n    "

/-- The loop of `load_css_files` (source lines 27-32): read each
collected file in order; a successful read contributes its content as a
stylesheet, a failed read contributes a warning line naming the file and
the error. -/
def loadCssLoop (fs : OS) : List String → List String × List String
  | [] => ([], [])
  | f :: rest =>
    let r := loadCssLoop fs rest
    match fs.readFile f with
    | Except.ok content => (content :: r.1, r.2)
    | Except.error e =>
      (r.1, ("Warning: Could not load CSS file " ++ f ++ ": " ++ e) :: r.2)

/-- `load_css_files(css_files)` from the source, lines 24-48: the loaded
contents followed by the unconditionally appended `default_css`, plus the
warning lines. -/
def load_css_files (fs : OS) (cssFiles : List String) :
    List String × List String :=
  let r := loadCssLoop fs cssFiles
  (r.1 ++ [default_css], r.2)

/-- The per-image rewriting of `convert_html_to_pdf`, source lines 63-67:
when `src` is present, non-empty (Python truthiness) and starts with none
of `http://`, `https://`, `/`, it is replaced by `file://` plus the join
of the base directory and the original value; otherwise it is left
unchanged. -/
def updateSrc (baseDir : String) (src : Option String) : Option String :=
  match src with
  | none => none
  | some s =>
    if s ≠ "" ∧ startsWithAny s ["http://", "https://", "/"] = false then
      some ("file://" ++ joinPath baseDir s)
    else some s

/-- Apply the image rewriting to one node: only `img` nodes change. -/
def normalizeNode (baseDir : String) : Node → Node
  | Node.img src => Node.img (updateSrc baseDir src)
  | n => n

/-- The `for img in soup.find_all('img')` loop: rewrite every image
node's `src`, leaving all other nodes in place. -/
def normalizeImgs (baseDir : String) (d : Doc) : Doc :=
  d.map (normalizeNode baseDir)

/-- The page-setup block `page_css` composed at source lines 76-83 from
the CLI-supplied page size, margin and page-number flag (`\x7b` and
`\x7d` denote the literal braces of the f-string). -/
def page_css (pageSize margin : String) (addPageNumbers : Bool) : String :=
  "\n        @page \x7b\n            " ++ ("size: " ++ pageSize ++ ";") ++
    "\n            " ++ ("margin: " ++ margin ++ ";") ++ "\n            " ++
    (if addPageNumbers then "@bottom-center \x7b content: counter(page); \x7d"
     else "") ++
    "\n        \x7d\n    "

/-- The pure part of `convert_html_to_pdf` once the input text has been
read and parsed (source lines 60-84): normalize the image paths, collect
and load the document stylesheets when `includeCss` is set, and append
the composed page block last. -/
def prepareCore (fs : OS) (doc : Doc) (baseDir pageSize margin : String)
    (includeCss addPageNumbers : Bool) : Prepared :=
  let soup := normalizeImgs baseDir doc
  let sw :=
    if includeCss then
      let fr := find_css_files fs soup baseDir
      let lr := load_css_files fs fr.1
      (lr.1, fr.2 ++ lr.2)
    else ([], [])
  ⟨soup, sw.1 ++ [page_css pageSize margin addPageNumbers], sw.2⟩

/-- `convert_html_to_pdf` up to (not including) the rendering call,
source lines 50-84: resolve the base directory, read the input file
(failures propagate), parse, and build the document and stylesheet list
that will be handed to the renderer. -/
def prepare (fs : OS) (parse : String → Doc)
    (htmlPath pageSize margin : String) (includeCss addPageNumbers : Bool) :
    Except String Prepared :=
  match fs.readFile htmlPath with
  | Except.error e => Except.error e
  | Except.ok htmlContent =>
    Except.ok (prepareCore fs (parse htmlContent) (fs.absDirname htmlPath)
      pageSize margin includeCss addPageNumbers)

/-- The whole of `convert_html_to_pdf` (source lines 50-90): prepare,
then invoke the external renderer (`HTML(...).write_pdf`), whose failure
also propagates.  A returned `Except.ok` means the renderer was invoked
and succeeded, i.e. the output file was written. -/
def convert_html_to_pdf (fs : OS)
    (render : Doc → List String → String → Except String Unit)
    (parse : String → Doc) (htmlPath outputPdf pageSize margin : String)
    (includeCss addPageNumbers : Bool) : Except String Prepared :=
  match prepare fs parse htmlPath pageSize margin includeCss addPageNumbers with
  | Except.error e => Except.error e
  | Except.ok p =>
    match render p.soup p.stylesheets outputPdf with
    | Except.error e => Except.error e
    | Except.ok _ => Except.ok p

/-- `main` (source lines 92-119): run the conversion inside the
catch-all `try`/`except` and return the final line printed — a success
line on success, `Error: <message>` on any failure.  The function is
total: the process always returns normally, with no distinct failure
exit status. -/
def main (fs : OS) (render : Doc → List String → String → Except String Unit)
    (parse : String → Doc) (htmlFile output size margin : String)
    (noCss noPageNumbers : Bool) : List String :=
  match convert_html_to_pdf fs render parse htmlFile output size margin
      (!noCss) (!noPageNumbers) with
  | Except.ok _ => ["Successfully converted " ++ htmlFile ++ " to " ++ output]
  | Except.error e => ["Error: " ++ e]

/-- `hay` contains `needle` as a contiguous substring. -/
def strContains (hay needle : String) : Prop := needle.data <:+: hay.data

instance (hay needle : String) : Decidable (strContains hay needle) :=
  List.decidableInfix needle.data hay.data

/-- The Stylesheet Collector's selection-and-resolution contract written
from the spec's words (for comparison with `find_css_files`): take, in
document order, every link element whose relation attribute's first
token equals `stylesheet` case-insensitively and whose reference is
present and non-empty, skip references starting with `http://` or
`https://`, resolve the remaining references against the containing
directory, and keep those existing on disk. -/
def find_css_files_spec (fs : OS) (nodes : List Node) (baseDir : String) :
    List String :=
  (nodes.filterMap (fun n =>
    match n with
    | Node.link rel href =>
      match (rel.getD [""]).head?, href with
      | some t, some h =>
        if (pyLower t = "stylesheet" ∧ h ≠ "") ∧
            startsWithAny h ["http://", "https://"] = false then
          some (joinPath baseDir h)
        else none
      | _, _ => none
    | _ => none)).filter fs.fileExists

/-- The loading step written from the spec's words: the contents of the
readable files, in order. -/
def loaded_contents_spec (fs : OS) (files : List String) : List String :=
  files.filterMap (fun f => (fs.readFile f).toOption)

/-- A concrete file system for witnesses: one readable HTML document at
`doc.html`, nothing else on disk. -/
def cOS : OS where
  fileExists := fun _ => false
  readFile := fun p =>
    if p = "doc.html" then Except.ok "<html></html>" else Except.error "missing"
  absDirname := fun _ => "/x"

/-- A concrete parse result for witnesses: one image and one stylesheet
link. -/
def cParse : String → Doc := fun _ =>
  [Node.img (some "pic.png"), Node.link (some ["stylesheet"]) (some "style.css")]

/-- A renderer that always succeeds. -/
def cRender : Doc → List String → String → Except String Unit :=
  fun _ _ _ => Except.ok ()

/-- A file system on which every path exists and every read succeeds
(used to show the empty-`href` link is dropped by the selection test,
not by the existence check). -/
def allTrueOS : OS where
  fileExists := fun _ => true
  readFile := fun _ => Except.ok "x"
  absDirname := fun _ => "/x"

/-- A file system exhibiting one missing stylesheet (`/x/missing.css`
does not exist), one unreadable one (`/x/good.css` exists but reading
raises `boom`) and one loadable one (`/x/ok.css`). -/
def wOS : OS where
  fileExists := fun p => p == "/x/good.css" || p == "/x/ok.css"
  readFile := fun p =>
    if p = "doc.html" then Except.ok "<html></html>"
    else if p = "/x/ok.css" then Except.ok "h1"
    else Except.error "boom"
  absDirname := fun _ => "/x"

/-- A parse result with three stylesheet links, matching `wOS`. -/
def wParse : String → Doc := fun _ =>
  [Node.link (some ["stylesheet"]) (some "missing.css"),
   Node.link (some ["stylesheet"]) (some "good.css"),
   Node.link (some ["stylesheet"]) (some "ok.css")]

/-! ## Helper lemmas -/

theorem strContains_of_parts (pre needle post hay : String)
    (h : hay = pre ++ needle ++ post) : strContains hay needle := by
  subst h
  exact ⟨pre.data, post.data, by simp [String.data_append]⟩

theorem page_css_contains_size (s m : String) (b : Bool) :
    strContains (page_css s m b) ("size: " ++ s ++ ";") := by
  refine ⟨"\n        @page \x7b\n            ".data,
    ("\n            " ++ ("margin: " ++ m ++ ";") ++ "\n            " ++
      (if b then "@bottom-center \x7b content: counter(page); \x7d" else "") ++
      "\n        \x7d\n    ").data, ?_⟩
  simp [page_css, String.data_append]

theorem page_css_contains_margin (s m : String) (b : Bool) :
    strContains (page_css s m b) ("margin: " ++ m ++ ";") := by
  refine ⟨("\n        @page \x7b\n            " ++ ("size: " ++ s ++ ";") ++
    "\n            ").data,
    ("\n            " ++
      (if b then "@bottom-center \x7b content: counter(page); \x7d" else "") ++
      "\n        \x7d\n    ").data, ?_⟩
  simp [page_css, String.data_append]

theorem page_css_true_footer (s m : String) :
    strContains (page_css s m true)
      "@bottom-center \x7b content: counter(page); \x7d" := by
  refine ⟨("\n        @page \x7b\n            " ++ ("size: " ++ s ++ ";") ++
    "\n            " ++ ("margin: " ++ m ++ ";") ++ "\n            ").data,
    "\n        \x7d\n    ".data, ?_⟩
  simp [page_css, String.data_append]

theorem page_css_false_no_footer (s m : String)
    (hs : '-' ∉ s.data) (hm : '-' ∉ m.data) :
    ¬ strContains (page_css s m false) "@bottom-center" := by
  intro h
  have hmem : '-' ∈ (page_css s m false).data := h.subset (by decide)
  simp [page_css, String.data_append, List.mem_append] at hmem
  rcases hmem with h1 | h1
  · exact hs h1
  · exact hm h1

theorem linkHref_eq (rel : Option (List String)) (t h : String)
    (ht : (rel.getD [""]).head? = some t) (hsel : pyLower t = "stylesheet")
    (hne : h ≠ "") : linkHref rel (some h) = some h := by
  simp [linkHref, ht, hsel, hne]

theorem find_css_files_sound (fs : OS) (b : String) (nodes : List Node) :
    ∀ p ∈ (find_css_files fs nodes b).1, fs.fileExists p = true := by
  induction nodes with
  | nil => simp [find_css_files]
  | cons n rest ih =>
    intro p hp
    cases n with
    | img src => exact ih p (by simpa [find_css_files] using hp)
    | other tg => exact ih p (by simpa [find_css_files] using hp)
    | link rel href =>
      rcases hh : linkHref rel href with _ | h
      · simp only [find_css_files, hh] at hp
        exact ih p hp
      · simp only [find_css_files, hh] at hp
        split at hp
        · split at hp
          · rcases List.mem_cons.mp hp with heq | hp'
            · subst heq
              assumption
            · exact ih p hp'
          · exact ih p hp
        · exact ih p hp

theorem find_warn_missing (fs : OS) (b t h : String) (rel : Option (List String))
    (nodes : List Node) (hmem : Node.link rel (some h) ∈ nodes)
    (ht : (rel.getD [""]).head? = some t) (hsel : pyLower t = "stylesheet")
    (hne : h ≠ "") (hloc : startsWithAny h ["http://", "https://"] = false)
    (hmiss : fs.fileExists (joinPath b h) = false) :
    ("Warning: CSS file not found: " ++ joinPath b h)
      ∈ (find_css_files fs nodes b).2 := by
  induction nodes with
  | nil => cases hmem
  | cons n rest ih =>
    rcases List.mem_cons.mp hmem with heq | hmem'
    · subst heq
      simp only [find_css_files, linkHref_eq rel t h ht hsel hne, hloc, hmiss]
      simp
    · have hrec := ih hmem'
      cases n with
      | img src => simpa [find_css_files] using hrec
      | other tg => simpa [find_css_files] using hrec
      | link rel2 href2 =>
        rcases hh : linkHref rel2 href2 with _ | h2
        · simp only [find_css_files, hh]
          exact hrec
        · simp only [find_css_files, hh]
          split
          · split
            · exact hrec
            · exact List.mem_cons_of_mem _ hrec
          · exact hrec

theorem find_path_mem (fs : OS) (b t h : String) (rel : Option (List String))
    (nodes : List Node) (hmem : Node.link rel (some h) ∈ nodes)
    (ht : (rel.getD [""]).head? = some t) (hsel : pyLower t = "stylesheet")
    (hne : h ≠ "") (hloc : startsWithAny h ["http://", "https://"] = false)
    (hex : fs.fileExists (joinPath b h) = true) :
    joinPath b h ∈ (find_css_files fs nodes b).1 := by
  induction nodes with
  | nil => cases hmem
  | cons n rest ih =>
    rcases List.mem_cons.mp hmem with heq | hmem'
    · subst heq
      simp only [find_css_files, linkHref_eq rel t h ht hsel hne, hloc, hex]
      simp
    · have hrec := ih hmem'
      cases n with
      | img src => simpa [find_css_files] using hrec
      | other tg => simpa [find_css_files] using hrec
      | link rel2 href2 =>
        rcases hh : linkHref rel2 href2 with _ | h2
        · simp only [find_css_files, hh]
          exact hrec
        · simp only [find_css_files, hh]
          split
          · split
            · exact List.mem_cons_of_mem _ hrec
            · exact hrec
          · exact hrec

theorem loadCssLoop_warn (fs : OS) (files : List String) (f e : String)
    (hf : f ∈ files) (he : fs.readFile f = Except.error e) :
    ("Warning: Could not load CSS file " ++ f ++ ": " ++ e)
      ∈ (loadCssLoop fs files).2 := by
  induction files with
  | nil => cases hf
  | cons g rest ih =>
    rcases List.mem_cons.mp hf with heq | hf'
    · subst heq
      simp [loadCssLoop, he]
    · have hrec := ih hf'
      rcases hg : fs.readFile g with e2 | c2
      · simp only [loadCssLoop, hg]
        exact List.mem_cons_of_mem _ hrec
      · simp only [loadCssLoop, hg]
        exact hrec

theorem loadCssLoop_content (fs : OS) (files : List String) (f c : String)
    (hf : f ∈ files) (hc : fs.readFile f = Except.ok c) :
    c ∈ (loadCssLoop fs files).1 := by
  induction files with
  | nil => cases hf
  | cons g rest ih =>
    rcases List.mem_cons.mp hf with heq | hf'
    · subst heq
      simp [loadCssLoop, hc]
    · have hrec := ih hf'
      rcases hg : fs.readFile g with e2 | c2
      · simp only [loadCssLoop, hg]
        exact hrec
      · simp only [loadCssLoop, hg]
        exact List.mem_cons_of_mem _ hrec

theorem default_mem_load (fs : OS) (files : List String) :
    default_css ∈ (load_css_files fs files).1 := by
  simp [load_css_files]

theorem prepare_read_ok (fs : OS) (parse : String → Doc)
    (htmlPath s m : String) (icss apn : Bool) (c : String)
    (h : fs.readFile htmlPath = Except.ok c) :
    prepare fs parse htmlPath s m icss apn =
      Except.ok (prepareCore fs (parse c) (fs.absDirname htmlPath)
        s m icss apn) := by
  simp [prepare, h]

theorem prepareCore_soup (fs : OS) (doc : Doc) (b s m : String)
    (icss apn : Bool) :
    (prepareCore fs doc b s m icss apn).soup = normalizeImgs b doc := by
  simp only [prepareCore]

theorem prepareCore_sheets_false (fs : OS) (doc : Doc) (b s m : String)
    (apn : Bool) :
    (prepareCore fs doc b s m false apn).stylesheets = [page_css s m apn] := by
  simp [prepareCore]

theorem prepareCore_sheets_true (fs : OS) (doc : Doc) (b s m : String)
    (apn : Bool) :
    (prepareCore fs doc b s m true apn).stylesheets =
      (load_css_files fs (find_css_files fs (normalizeImgs b doc) b).1).1 ++
        [page_css s m apn] := by
  simp [prepareCore]

theorem prepareCore_warns_true (fs : OS) (doc : Doc) (b s m : String)
    (apn : Bool) :
    (prepareCore fs doc b s m true apn).warnings =
      (find_css_files fs (normalizeImgs b doc) b).2 ++
        (load_css_files fs (find_css_files fs (normalizeImgs b doc) b).1).2 := by
  simp [prepareCore]

theorem link_mem_normalize (b : String) (d : Doc) (rel : Option (List String))
    (href : Option String) (h : Node.link rel href ∈ d) :
    Node.link rel href ∈ normalizeImgs b d := by
  have heq : normalizeNode b (Node.link rel href) = Node.link rel href := rfl
  exact heq ▸ List.mem_map_of_mem (normalizeNode b) h

theorem find_eq_spec (fs : OS) (b : String) (nodes : List Node) :
    (find_css_files fs nodes b).1 = find_css_files_spec fs nodes b := by
  induction nodes with
  | nil => simp [find_css_files, find_css_files_spec]
  | cons n rest ih =>
    cases n with
    | img src =>
      simpa [find_css_files, find_css_files_spec, List.filterMap_cons] using ih
    | other tg =>
      simpa [find_css_files, find_css_files_spec, List.filterMap_cons] using ih
    | link rel href =>
      rcases hh : (rel.getD [""]).head? with _ | t
      · simpa [find_css_files, find_css_files_spec, linkHref, hh,
          List.filterMap_cons] using ih
      · rcases href with _ | h
        · simpa [find_css_files, find_css_files_spec, linkHref, hh,
            List.filterMap_cons] using ih
        · by_cases hsel : pyLower t = "stylesheet" ∧ h ≠ ""
          · by_cases hnet : startsWithAny h ["http://", "https://"] = false
            · by_cases hex : fs.fileExists (joinPath b h) = true
              · simp [find_css_files, find_css_files_spec, linkHref, hh, hsel,
                  hnet, hex, List.filterMap_cons, List.filter_cons, ih]
              · simp [find_css_files, find_css_files_spec, linkHref, hh, hsel,
                  hnet, hex, List.filterMap_cons, List.filter_cons, ih]
            · simp [find_css_files, find_css_files_spec, linkHref, hh, hsel,
                hnet, List.filterMap_cons, List.filter_cons, ih]
          · simp [find_css_files, find_css_files_spec, linkHref, hh, hsel,
              List.filterMap_cons, List.filter_cons, ih]

theorem load_eq_spec (fs : OS) (files : List String) :
    (loadCssLoop fs files).1 = loaded_contents_spec fs files := by
  induction files with
  | nil => simp [loadCssLoop, loaded_contents_spec]
  | cons f rest ih =>
    rcases hf : fs.readFile f with e | c
    · simpa [loadCssLoop, loaded_contents_spec, hf, List.filterMap_cons,
        Except.toOption] using ih
    · simpa [loadCssLoop, loaded_contents_spec, hf, List.filterMap_cons,
        Except.toOption] using ih

theorem pyStartswith_head (s p : String) (ch : Char)
    (hp : pyStartswith s p = true) (hc : p.data.head? = some ch) :
    s.data.head? = some ch := by
  have hpre : p.data <+: s.data := List.isPrefixOf_iff_prefix.mp hp
  rcases hpre with ⟨t, ht⟩
  rw [← ht]
  cases hd : p.data with
  | nil => rw [hd] at hc; cases hc
  | cons a as =>
    rw [hd] at hc
    simp only [List.head?_cons, Option.some.injEq] at hc
    simp [hd, hc]




/-- C1 counterexample: at a concrete conversion with includeCss=false the
produced stylesheet sequence is the composed page-rule block alone — one
entry, not two — and the default page-style block is absent from it (the
two blocks are distinct strings). -/
theorem no_css_sheet_list_lacks_default_cex :
    (prepare cOS cParse "doc.html" "A4" "1cm" false true).map
        (fun p => p.stylesheets) = Except.ok [page_css "A4" "1cm" true]
      ∧ page_css "A4" "1cm" true ≠ default_css :=
  ⟨rfl, by decide⟩

/-- C1 (amended): for every conversion with includeCss=false whose input
file is readable, the stylesheet sequence handed to the renderer is
exactly the composed page-rule block — one entry, with no
document-sourced content and no default block; the default block is
appended only when includeCss is true. -/
theorem no_css_sheet_list_only_page_block (fs : OS) (parse : String → Doc)
    (htmlPath s m : String) (apn : Bool) (c : String)
    (hread : fs.readFile htmlPath = Except.ok c) :
    (prepare fs parse htmlPath s m false apn).map (fun p => p.stylesheets)
        = Except.ok [page_css s m apn]
      ∧ ∀ q, prepare fs parse htmlPath s m true apn = Except.ok q →
          default_css ∈ q.stylesheets := by
  constructor
  · rw [prepare_read_ok fs parse htmlPath s m false apn c hread]
    simp [Except.map, prepareCore_sheets_false]
  · intro q hq
    rw [prepare_read_ok fs parse htmlPath s m true apn c hread] at hq
    cases hq
    rw [prepareCore_sheets_true]
    exact List.mem_append_left _ (default_mem_load fs _)

/-- Witness for C1's amended theorem at a concrete input. -/
theorem no_css_sheet_list_only_page_block_wit :
    (prepare cOS cParse "doc.html" "Letter" "2cm" false false).map
        (fun p => p.stylesheets) = Except.ok [page_css "Letter" "2cm" false]
      ∧ ∀ q, prepare cOS cParse "doc.html" "Letter" "2cm" true false
            = Except.ok q → default_css ∈ q.stylesheets :=
  no_css_sheet_list_only_page_block cOS cParse "doc.html" "Letter" "2cm"
    false "<html></html>" rfl

/-- C2: for every conversion that reaches the renderer, the stylesheet
sequence handed to it is non-empty and its last entry is the composed
page-rule block built from the CLI-supplied pageSize, margin and
addPageNumbers — regardless of includeCss and of the document's
contents. -/
theorem page_block_always_last (fs : OS) (parse : String → Doc)
    (htmlPath s m : String) (icss apn : Bool) (p : Prepared)
    (hp : prepare fs parse htmlPath s m icss apn = Except.ok p) :
    p.stylesheets ≠ [] ∧ p.stylesheets.getLast? = some (page_css s m apn) := by
  unfold prepare at hp
  rcases hr : fs.readFile htmlPath with e | c
  · rw [hr] at hp
    cases hp
  · rw [hr] at hp
    cases hp
    constructor
    · cases icss <;> simp [prepareCore]
    · cases icss <;> simp [prepareCore, List.getLast?_concat]

/-- Witness for C2 at a concrete input (includeCss on). -/
theorem page_block_always_last_wit :
    ∃ p, prepare cOS cParse "doc.html" "A4" "1cm" true true = Except.ok p
      ∧ p.stylesheets ≠ []
      ∧ p.stylesheets.getLast? = some (page_css "A4" "1cm" true) :=
  ⟨_, rfl, page_block_always_last cOS cParse "doc.html" "A4" "1cm" true true _ rfl⟩




/-- C3 counterexample: an img whose src attribute is present but empty is
left unchanged by normalization, although the empty value starts with
none of the three exempt prefixes — so "present" alone is not enough. -/
theorem empty_src_not_rewritten_cex :
    normalizeImgs "/x" [Node.img (some "")] = [Node.img (some "")]
      ∧ startsWithAny "" ["http://", "https://", "/"] = false
      ∧ some "" ≠ some ("file://" ++ joinPath "/x" "") := by
  decide

/-- C3 (amended): for every img element in the parsed document whose src
is present, non-empty and does not start with `http://`, `https://` or
`/`, normalization replaces the src with `file://` prepended to the
path-join of the containing directory and the original value; a src
starting with one of those prefixes is left unchanged. -/
theorem img_src_normalization (b : String) (d : Doc) (i : Nat) (s : String)
    (hs : d[i]? = some (Node.img (some s))) :
    (s ≠ "" → startsWithAny s ["http://", "https://", "/"] = false →
        (normalizeImgs b d)[i]? =
          some (Node.img (some ("file://" ++ joinPath b s))))
      ∧ (startsWithAny s ["http://", "https://", "/"] = true →
          (normalizeImgs b d)[i]? = some (Node.img (some s))) := by
  constructor
  · intro hne hpre
    simp [normalizeImgs, List.getElem?_map, hs, normalizeNode, updateSrc,
      hne, hpre]
  · intro hpre
    simp [normalizeImgs, List.getElem?_map, hs, normalizeNode, updateSrc, hpre]

/-- Witness for C3's amended theorem: a relative reference is rewritten. -/
theorem img_src_normalization_wit :
    (normalizeImgs "/x" [Node.img (some "pic.png")])[0]? =
      some (Node.img (some ("file://" ++ joinPath "/x" "pic.png"))) :=
  (img_src_normalization "/x" [Node.img (some "pic.png")] 0 "pic.png" rfl).1
    (by decide) (by decide)

/-- C4: for hyphen-free pageSize and margin tokens the composed
page-rule block contains the `@page` rule with the given size and margin
declarations; with addPageNumbers=true it contains the bottom-center
page-counter footer rule, and with addPageNumbers=false it contains no
bottom-center footer rule at all. -/
theorem page_css_size_margin_footer (s m : String)
    (hs : '-' ∉ s.data) (hm : '-' ∉ m.data) : ∀ b : Bool,
    strContains (page_css s m b) "@page"
      ∧ strContains (page_css s m b) ("size: " ++ s ++ ";")
      ∧ strContains (page_css s m b) ("margin: " ++ m ++ ";")
      ∧ strContains (page_css s m true)
          "@bottom-center \x7b content: counter(page); \x7d"
      ∧ ¬ strContains (page_css s m false) "@bottom-center" := by
  intro b
  refine ⟨?_, page_css_contains_size s m b, page_css_contains_margin s m b,
    page_css_true_footer s m, page_css_false_no_footer s m hs hm⟩
  refine ⟨"\n        ".data,
    (" \x7b\n            " ++ ("size: " ++ s ++ ";") ++ "\n            " ++
      ("margin: " ++ m ++ ";") ++ "\n            " ++
      (if b then "@bottom-center \x7b content: counter(page); \x7d" else "") ++
      "\n        \x7d\n    ").data, ?_⟩
  simp [page_css, String.data_append]

/-- Witness for C4 at the concrete tokens Letter and 2cm. -/
theorem page_css_size_margin_footer_wit :
    strContains (page_css "Letter" "2cm" false) "@page"
      ∧ strContains (page_css "Letter" "2cm" false) ("size: " ++ "Letter" ++ ";")
      ∧ strContains (page_css "Letter" "2cm" false) ("margin: " ++ "2cm" ++ ";")
      ∧ strContains (page_css "Letter" "2cm" true)
          "@bottom-center \x7b content: counter(page); \x7d"
      ∧ ¬ strContains (page_css "Letter" "2cm" false) "@bottom-center" :=
  page_css_size_margin_footer "Letter" "2cm" (by decide) (by decide) false

/-- C9: a src using a non-network scheme other than a leading slash (for
example `file://` or `data:`) is not exempt: it is rewritten to `file://`
plus the join of the containing directory and the full original value,
which is a different, double-prefixed string. -/
theorem scheme_src_double_prefixed (b s : String)
    (h : pyStartswith s "file://" = true ∨ pyStartswith s "data:" = true) :
    updateSrc b (some s) = some ("file://" ++ joinPath b s)
      ∧ "file://" ++ joinPath b s ≠ s := by
  have hhead : s.data.head? = some 'f' ∨ s.data.head? = some 'd' := by
    rcases h with h | h
    · exact Or.inl (pyStartswith_head s "file://" 'f' h rfl)
    · exact Or.inr (pyStartswith_head s "data:" 'd' h rfl)
  have hne : s ≠ "" := by
    intro he
    subst he
    rcases hhead with h1 | h1 <;> cases h1
  have hone : ∀ p : String, ∀ ch : Char, p.data.head? = some ch →
      ch ≠ 'f' → ch ≠ 'd' → pyStartswith s p = false := by
    intro p ch hch hf hd
    cases hq : pyStartswith s p
    · rfl
    · have := pyStartswith_head s p ch hq hch
      rcases hhead with h1 | h1 <;> rw [h1] at this <;>
        simp only [Option.some.injEq] at this
      · exact absurd this.symm hf
      · exact absurd this.symm hd
  have hsw : startsWithAny s ["http://", "https://", "/"] = false := by
    simp only [startsWithAny, List.any_cons, List.any_nil, Bool.or_eq_false_iff]
    exact ⟨hone "http://" 'h' rfl (by decide) (by decide),
      hone "https://" 'h' rfl (by decide) (by decide),
      hone "/" '/' rfl (by decide) (by decide), trivial⟩
  have hju : s.length ≤ (joinPath b s).length := by
    unfold joinPath
    split
    · exact Nat.le_refl _
    · split
      · simp [String.length_append]
      · simp [String.length_append]
  constructor
  · simp [updateSrc, hne, hsw]
  · intro heq
    have hlen := congrArg String.length heq
    rw [String.length_append] at hlen
    have h7 : ("file://" : String).length = 7 := rfl
    omega

/-- Witness for C9: an already-`file://` reference gets double-prefixed. -/
theorem scheme_src_double_prefixed_wit :
    updateSrc "/base" (some "file:///x/pic.png")
        = some ("file://" ++ joinPath "/base" "file:///x/pic.png")
      ∧ "file://" ++ joinPath "/base" "file:///x/pic.png" ≠ "file:///x/pic.png" :=
  scheme_src_double_prefixed "/base" "file:///x/pic.png" (Or.inl (by decide))




/-- C5: stylesheet-loading problems never abort the conversion.  With a
readable input and a working renderer, a conversion whose document
references one stylesheet resolving to a missing file and one resolving
to an unreadable file still completes (the renderer is invoked and the
output written), while a warning naming the missing file's resolved path
and a warning naming the unreadable file and its error are emitted, and
every path the collector keeps exists on disk (the missing one was
skipped). -/
theorem stylesheet_problems_nonfatal (fs : OS)
    (render : Doc → List String → String → Except String Unit)
    (parse : String → Doc) (htmlPath outputPdf s m : String) (apn : Bool)
    (c t1 t2 h1 h2 e : String) (r1 r2 : Option (List String))
    (hread : fs.readFile htmlPath = Except.ok c)
    (hrender : ∀ d ss, render d ss outputPdf = Except.ok ())
    (hl1 : Node.link r1 (some h1) ∈ parse c)
    (ht1 : (r1.getD [""]).head? = some t1)
    (hsel1 : pyLower t1 = "stylesheet") (hne1 : h1 ≠ "")
    (hloc1 : startsWithAny h1 ["http://", "https://"] = false)
    (hmiss : fs.fileExists (joinPath (fs.absDirname htmlPath) h1) = false)
    (hl2 : Node.link r2 (some h2) ∈ parse c)
    (ht2 : (r2.getD [""]).head? = some t2)
    (hsel2 : pyLower t2 = "stylesheet") (hne2 : h2 ≠ "")
    (hloc2 : startsWithAny h2 ["http://", "https://"] = false)
    (hex2 : fs.fileExists (joinPath (fs.absDirname htmlPath) h2) = true)
    (herr2 : fs.readFile (joinPath (fs.absDirname htmlPath) h2)
      = Except.error e) :
    ∃ p, convert_html_to_pdf fs render parse htmlPath outputPdf s m true apn
          = Except.ok p
      ∧ ("Warning: CSS file not found: "
            ++ joinPath (fs.absDirname htmlPath) h1) ∈ p.warnings
      ∧ ("Warning: Could not load CSS file "
            ++ joinPath (fs.absDirname htmlPath) h2 ++ ": " ++ e) ∈ p.warnings
      ∧ ∀ q ∈ (find_css_files fs
            (normalizeImgs (fs.absDirname htmlPath) (parse c))
            (fs.absDirname htmlPath)).1, fs.fileExists q = true := by
  refine ⟨prepareCore fs (parse c) (fs.absDirname htmlPath) s m true apn,
    ?_, ?_, ?_, find_css_files_sound fs (fs.absDirname htmlPath) _⟩
  · unfold convert_html_to_pdf
    rw [prepare_read_ok fs parse htmlPath s m true apn c hread]
    simp [hrender]
  · rw [prepareCore_warns_true]
    exact List.mem_append_left _
      (find_warn_missing fs (fs.absDirname htmlPath) t1 h1 r1 _
        (link_mem_normalize (fs.absDirname htmlPath) _ r1 (some h1) hl1)
        ht1 hsel1 hne1 hloc1 hmiss)
  · rw [prepareCore_warns_true]
    refine List.mem_append_right _ ?_
    have hpath := find_path_mem fs (fs.absDirname htmlPath) t2 h2 r2 _
      (link_mem_normalize (fs.absDirname htmlPath) _ r2 (some h2) hl2)
      ht2 hsel2 hne2 hloc2 hex2
    simpa [load_css_files] using
      loadCssLoop_warn fs _ (joinPath (fs.absDirname htmlPath) h2) e hpath herr2

/-- Witness for C5 on the concrete `wOS` scenario. -/
theorem stylesheet_problems_nonfatal_wit :
    ∃ p, convert_html_to_pdf wOS cRender wParse "doc.html" "out.pdf" "A4" "1cm"
          true true = Except.ok p
      ∧ ("Warning: CSS file not found: "
            ++ joinPath (wOS.absDirname "doc.html") "missing.css") ∈ p.warnings
      ∧ ("Warning: Could not load CSS file "
            ++ joinPath (wOS.absDirname "doc.html") "good.css" ++ ": "
            ++ "boom") ∈ p.warnings
      ∧ ∀ q ∈ (find_css_files wOS
            (normalizeImgs (wOS.absDirname "doc.html") (wParse "<html></html>"))
            (wOS.absDirname "doc.html")).1, wOS.fileExists q = true :=
  stylesheet_problems_nonfatal wOS cRender wParse "doc.html" "out.pdf" "A4"
    "1cm" true "<html></html>" "stylesheet" "stylesheet" "missing.css"
    "good.css" "boom" (some ["stylesheet"]) (some ["stylesheet"])
    rfl (fun _ _ => rfl) (by decide) rfl (by decide) (by decide) (by decide)
    rfl (by decide) rfl (by decide) (by decide) (by decide) rfl rfl




/-- C6 counterexample: a link with `rel="stylesheet"` and a present but
empty `href` satisfies the claim's selection condition (first rel token
is `stylesheet`, reference present), yet the collector selects nothing —
even on a file system where every path exists — because Python's
truthiness test drops the empty reference. -/
theorem empty_href_not_selected_cex :
    find_css_files allTrueOS [Node.link (some ["stylesheet"]) (some "")] "/x"
        = ([], [])
      ∧ pyLower (["stylesheet"].headD "") = "stylesheet"
      ∧ (some "" : Option String).isSome = true := by
  decide

/-- C6 (amended): the Stylesheet Collector selects exactly the link
elements whose relation attribute's first token equals `stylesheet`
case-insensitively and whose href reference is present and non-empty,
skips references starting with `http://` or `https://`, resolves the
remaining references against the containing directory, and returns the
loaded contents in document order of appearance — stated as agreement
with the selection contract transcribed from the spec. -/
theorem collector_matches_spec (fs : OS) (nodes : List Node) (b : String) :
    (find_css_files fs nodes b).1 = find_css_files_spec fs nodes b
      ∧ (∀ files, (loadCssLoop fs files).1 = loaded_contents_spec fs files)
      ∧ (loadCssLoop fs (find_css_files fs nodes b).1).1
          = loaded_contents_spec fs (find_css_files_spec fs nodes b) :=
  ⟨find_eq_spec fs b nodes, fun files => load_eq_spec fs files,
    by rw [find_eq_spec fs b nodes, load_eq_spec]⟩

/-- C7: on any failure at any stage the program prints an error line
containing the exception's message and returns normally (main is a total
function on every input); and when reading the input HTML fails, the
conversion aborts with that error no matter what the renderer would do —
the renderer is never reached, so no output file is written. -/
theorem failure_prints_error_and_no_output (fs : OS)
    (render : Doc → List String → String → Except String Unit)
    (parse : String → Doc) (htmlFile output s m : String)
    (noCss noPn : Bool) (e : String) :
    (convert_html_to_pdf fs render parse htmlFile output s m (!noCss) (!noPn)
          = Except.error e →
        main fs render parse htmlFile output s m noCss noPn
          = ["Error: " ++ e])
      ∧ (fs.readFile htmlFile = Except.error e →
          ∀ render2 : Doc → List String → String → Except String Unit,
            convert_html_to_pdf fs render2 parse htmlFile output s m (!noCss)
              (!noPn) = Except.error e) := by
  constructor
  · intro h
    simp [main, h]
  · intro h render2
    simp [convert_html_to_pdf, prepare, h]

/-- Witness for C7: a missing input file yields the error line and the
same error from the conversion under any renderer. -/
theorem failure_prints_error_and_no_output_wit :
    main cOS cRender cParse "nope.html" "out.pdf" "A4" "1cm" false false
        = ["Error: " ++ "missing"]
      ∧ convert_html_to_pdf cOS cRender cParse "nope.html" "out.pdf" "A4" "1cm"
          (!false) (!false) = Except.error "missing" :=
  ⟨(failure_prints_error_and_no_output cOS cRender cParse "nope.html" "out.pdf"
      "A4" "1cm" false false "missing").1 rfl,
    (failure_prints_error_and_no_output cOS cRender cParse "nope.html" "out.pdf"
      "A4" "1cm" false false "missing").2 rfl cRender⟩

/-- C8: image-path normalization is independent of includeCss — for any
two settings of the flag the document handed to the renderer (with its
rewritten img src attributes) is the same. -/
theorem normalization_independent_of_includeCss (fs : OS)
    (parse : String → Doc) (htmlPath s m : String) (icss1 icss2 apn : Bool) :
    (prepare fs parse htmlPath s m icss1 apn).map (fun p => p.soup)
      = (prepare fs parse htmlPath s m icss2 apn).map (fun p => p.soup) := by
  rcases hr : fs.readFile htmlPath with e | c
  · simp [prepare, hr]
  · simp [prepare, hr, Except.map, prepareCore_soup]

/-- C10: with includeCss=true, a loadable document stylesheet and
addPageNumbers=false, the sequence still carries page numbering: the
loaded content is present, the default block is present and contains the
bottom-center `counter(page)` footer, and the final CLI page-rule block
contains no bottom-center footer rule that would override it. -/
theorem no_page_numbers_default_footer_persists (fs : OS)
    (parse : String → Doc) (htmlPath s m : String)
    (c t0 h0 cont : String) (r0 : Option (List String))
    (hread : fs.readFile htmlPath = Except.ok c)
    (hs : '-' ∉ s.data) (hm : '-' ∉ m.data)
    (hl : Node.link r0 (some h0) ∈ parse c)
    (ht : (r0.getD [""]).head? = some t0)
    (hsel : pyLower t0 = "stylesheet") (hne : h0 ≠ "")
    (hloc : startsWithAny h0 ["http://", "https://"] = false)
    (hex : fs.fileExists (joinPath (fs.absDirname htmlPath) h0) = true)
    (hok : fs.readFile (joinPath (fs.absDirname htmlPath) h0)
      = Except.ok cont) :
    ∃ p, prepare fs parse htmlPath s m true false = Except.ok p
      ∧ cont ∈ p.stylesheets
      ∧ default_css ∈ p.stylesheets
      ∧ strContains default_css "@bottom-center"
      ∧ strContains default_css "counter(page)"
      ∧ p.stylesheets.getLast? = some (page_css s m false)
      ∧ ¬ strContains (page_css s m false) "@bottom-center" := by
  refine ⟨prepareCore fs (parse c) (fs.absDirname htmlPath) s m true false,
    prepare_read_ok fs parse htmlPath s m true false c hread, ?_, ?_,
    by decide, by decide, ?_, page_css_false_no_footer s m hs hm⟩
  · rw [prepareCore_sheets_true]
    refine List.mem_append_left _ ?_
    have hpath := find_path_mem fs (fs.absDirname htmlPath) t0 h0 r0 _
      (link_mem_normalize (fs.absDirname htmlPath) _ r0 (some h0) hl)
      ht hsel hne hloc hex
    have hcont := loadCssLoop_content fs _
      (joinPath (fs.absDirname htmlPath) h0) cont hpath hok
    simpa [load_css_files] using List.mem_append_left [default_css] hcont
  · rw [prepareCore_sheets_true]
    exact List.mem_append_left _ (default_mem_load fs _)
  · rw [prepareCore_sheets_true]
    exact List.getLast?_concat _

/-- Witness for C10 on the concrete `wOS` scenario (the `ok.css`
stylesheet loads with content `h1`). -/
theorem no_page_numbers_default_footer_persists_wit :
    ∃ p, prepare wOS wParse "doc.html" "Letter" "2cm" true false = Except.ok p
      ∧ "h1" ∈ p.stylesheets
      ∧ default_css ∈ p.stylesheets
      ∧ strContains default_css "@bottom-center"
      ∧ strContains default_css "counter(page)"
      ∧ p.stylesheets.getLast? = some (page_css "Letter" "2cm" false)
      ∧ ¬ strContains (page_css "Letter" "2cm" false) "@bottom-center" :=
  no_page_numbers_default_footer_persists wOS wParse "doc.html" "Letter" "2cm"
    "<html></html>" "stylesheet" "ok.css" "h1" (some ["stylesheet"])
    rfl (by decide) (by decide) (by decide) rfl (by decide) (by decide)
    (by decide) (by decide) rfl

end HtmlToPdf
